import Mathlib

/-!
# Verification of the Ursinaxball simulation core

Shallow embedding of the deterministic game core (`ursinaxball/game.py`,
`ursinaxball/objects/base/ball.py`, `game/modules/systems/game_recorder.py`)
in Lean 4, together with theorems settling the specification claims.

Python floats are modelled as rationals (`ℚ`), numpy 2-vectors as `Vec2`,
Python ints as `ℤ`/`ℕ`, and the `CollisionFlag` bitmask as a natural-number
bitmask. Field names follow the source (`collision_group` and `c_group` are
unified as `cGroup`, `speed`/`velocity` as `velocity`).
-/

namespace Ursinaxball

/-- A 2D vector with rational components, modelling `np.array([x, y])`. -/
structure Vec2 where
  x : ℚ
  y : ℚ
deriving DecidableEq, Repr

/-- Componentwise subtraction of 2D vectors, modelling numpy `a - b`. -/
def Vec2.sub (a b : Vec2) : Vec2 := ⟨a.x - b.x, a.y - b.y⟩

/-- `np.cross` on 2D vectors: the scalar `a.x * b.y - a.y * b.x`. -/
def cross (a b : Vec2) : ℚ := a.x * b.y - a.y * b.x

/-! ## Collision flags

Modelled from the spec: the `CollisionFlag` enum lives in
`ursinaxball/utils/enums.py` / `common_values.py`, which are not under `src/`.
The spec (§3, Glossary) fixes the flag set
`ball, red, blue, redKO, blueKO, wall, all, kick, score, c0…c3, player` as a
bitmask; each named flag is a distinct bit and `ALL` covers the base flags.
`from_list` ORs the named flags together. -/

namespace CollisionFlag

def BALL : ℕ := 1
def RED : ℕ := 2
def BLUE : ℕ := 4
def REDKO : ℕ := 8
def BLUEKO : ℕ := 16
def WALL : ℕ := 32
def ALL : ℕ := 63
def KICK : ℕ := 64
def SCORE : ℕ := 128

end CollisionFlag

/-- Modelled from the spec: `PLAYER_COLLISION`, the mask given to player discs,
comes from `common_values.py` (not under `src/`). Per the spec (§3
Invariants) the kickoff-barrier flag "is cleared on transition to PLAYING",
and `_handle_playing_state` assigns exactly `PLAYER_COLLISION`, so the
constant contains the ordinary contact flags and neither `REDKO` nor
`BLUEKO`. -/
def PLAYER_COLLISION : ℕ :=
  CollisionFlag.BALL ||| CollisionFlag.RED ||| CollisionFlag.BLUE |||
    CollisionFlag.WALL

/-- Modelled from the spec: `TeamID` enum from `common_values.py`
(not under `src/`), with members RED, BLUE, SPECTATOR. -/
inductive TeamID where
  | spectator
  | red
  | blue
deriving DecidableEq, Repr

/-- Modelled from the spec: `GameState` enum {KICKOFF, PLAYING, GOAL, END}
from `common_values.py` (not under `src/`). `goalAnim`/`ended` stand for the
Python members `GOAL`/`END` (`end` is a Lean keyword). -/
inductive GameState where
  | kickoff
  | playing
  | goalAnim
  | ended
deriving DecidableEq, Repr

/-- A disc (`objects/base/disc.py`, mirrored by the fields `game.py` and
`ball.py` use): position, velocity, gravity, radius, inverse mass, damping,
restitution, RGBA color, collision group/mask bitmasks and the optional
player back-reference. -/
structure Disc where
  position : Vec2
  velocity : Vec2
  gravity : Vec2
  radius : ℚ
  invMass : ℚ
  damping : ℚ
  bCoef : ℚ
  color : ℕ × ℕ × ℕ × ℕ
  cGroup : ℕ
  cMask : ℕ
  playerId : Option ℕ
deriving DecidableEq, Repr

/-- A goal (`objects/base/goal_object.py`): the two endpoints `points[0]`,
`points[1]` and the team tag string. -/
structure Goal where
  p0 : Vec2
  p1 : Vec2
  team : String
deriving DecidableEq, Repr

/-- The parts of `Stadium` (`objects/stadium_object.py`) that `game.py`
reads: disc list (index 0 is the ball), goals, `kickoff_reset` mode string,
`spawn_distance`, the two spawn-point lists and the `player_physics`
template disc. -/
structure Stadium where
  discs : List Disc
  goals : List Goal
  kickoffReset : String
  spawnDistance : ℚ
  redSpawnPoints : List Vec2
  blueSpawnPoints : List Vec2
  playerPhysics : Disc
deriving DecidableEq, Repr

/-- The parts of `PlayerHandler` (`modules/player.py`) that `game.py`
manipulates: team, numeric id, owned disc and the current action triple. -/
structure Player where
  team : TeamID
  id : ℕ
  disc : Disc
  action : List ℤ
deriving DecidableEq, Repr

/-! ## `normalize_action` (`game.py` lines 34-53) -/

/-- A Python value passed as one player's action: `None`, a list/tuple (or
ndarray row) of optionally-`None` integer cells, or any other object. -/
inductive PyAction where
  | none
  | list (cells : List (Option ℤ))
  | other
deriving DecidableEq, Repr

/-- `DEFAULT_ACTION = [0, 0, 0]` (`game.py` line 31). -/
def DEFAULT_ACTION : List ℤ := [0, 0, 0]

/-- `normalize_action` (`game.py` lines 34-53): `None` becomes the default
action; a list/tuple keeps its cells with `None` cells replaced by `0`;
anything else becomes the default action. No clamping is performed. -/
def normalizeAction : PyAction → List ℤ
  | .none => DEFAULT_ACTION
  | .list cells => cells.map (fun c => c.getD 0)
  | .other => DEFAULT_ACTION

/-- The action-storing effect of `Game.make_player_action` (`game.py` lines
89-91): the player's `action` field is set to the normalized action.
(`resolve_movement`, from `modules/player.py` outside `src/`, reads the
stored action to adjust the disc's velocity and does not write `action`
back, per spec §4.4; its physics effect is irrelevant to the stored
action.) -/
def makePlayerAction (p : Player) (a : PyAction) : Player :=
  { p with action := normalizeAction a }

/-! ## Action application in `Game.step` (`game.py` lines 278-301)

`step` does `for action, player in zip(actions, self.players):
make_player_action(player, action)`. Python's `zip` stops at the shorter
sequence: extra action rows are ignored by this pass and players beyond the
action count keep their previous action. `step` itself performs no shape
validation, but when a recorder is attached it later passes the same rows
to `recorder.step` (`game.py` line 297), whose per-row indexing raises
`IndexError` on extra rows — that error path is modelled by `stepActions`
below, after the recorder definitions. -/

/-- The player-action application pass of `Game.step`: each player paired
with an action row by `zip` gets the normalized action stored; the rest are
untouched. -/
def stepApplyActions (players : List Player) (actions : List PyAction) :
    List Player :=
  List.zipWith (fun a p => makePlayerAction p a) actions players ++
    players.drop actions.length

/-! ## `Game.check_goal` (`game.py` lines 107-133) -/

/-- The goal-crossing test from the body of `check_goal`: with
`current_p0 = cur - p0`, `current_p1 = cur - p1`,
`previous_p0 = prev - p0`, `disc_vector = cur - prev` and
`goal_vector = p1 - p0`, the condition is
`cross(current_p0, disc_vector) * cross(current_p1, disc_vector) ≤ 0` and
`cross(previous_p0, goal_vector) * cross(current_p0, goal_vector) ≤ 0`. -/
def goalCondB (prev cur : Vec2) (g : Goal) : Bool :=
  decide (cross (cur.sub g.p0) (cur.sub prev) *
      cross (cur.sub g.p1) (cur.sub prev) ≤ 0) &&
  decide (cross (prev.sub g.p0) (g.p1.sub g.p0) *
      cross (cur.sub g.p0) (g.p1.sub g.p0) ≤ 0)

/-- `TeamID.RED if goal.team == "red" else TeamID.BLUE` (`game.py` line
130). -/
def teamOfGoal (g : Goal) : TeamID :=
  if g.team = "red" then TeamID.red else TeamID.blue

/-- The nested loops of `check_goal`: for each (previous, current) disc pair
in order, for each goal in order, return the goal's team on the first pair
satisfying the crossing condition; `SPECTATOR` if none does. -/
def checkGoalAux : List (Disc × Disc) → List Goal → TeamID
  | [], _ => TeamID.spectator
  | (prev, cur) :: rest, goals =>
    match goals.find? (fun g => goalCondB prev.position cur.position g) with
    | some g => teamOfGoal g
    | none => checkGoalAux rest goals

/-- `Game.check_goal` (`game.py` lines 107-133): the current score-flagged
discs are the stadium discs whose `collision_group` has the `SCORE` bit;
they are zipped with the supplied previous positions and scanned against
the stadium's goals. -/
def checkGoal (sg : Stadium) (previous : List Disc) : TeamID :=
  checkGoalAux
    (previous.zip
      (sg.discs.filter (fun d => d.cGroup &&& CollisionFlag.SCORE != 0)))
    sg.goals

/-! ## `get_ball` (`objects/base/ball.py` lines 17-53) -/

/-- The `ball_default` literal of `get_ball`: origin position, zero speed and
gravity, radius 10, inverse mass 1, damping 0.99, restitution 0.5, white
color, collision group `from_list(["ball"])` and mask `from_list(["all"])`. -/
def ballDefault : Disc :=
  { position := ⟨0, 0⟩
    velocity := ⟨0, 0⟩
    gravity := ⟨0, 0⟩
    radius := 10
    invMass := 1
    damping := 99 / 100
    bCoef := 1 / 2
    color := (255, 255, 255, 255)
    cGroup := CollisionFlag.BALL
    cMask := CollisionFlag.ALL
    playerId := none }

/-- The `ball` argument of `get_ball`: Python `None`, a string, or an inline
object. For the inline form, the resolution `msgspec.convert` +
`DiscRaw.to_disc(traits)` (in `objects/base/disc.py`, not under `src/`) is
abstracted: `resolved` is the disc it produces, except that `get_ball`
first forces `ball["pos"] = [0.0, 0.0]`, so the resolved position is
overridden to the origin below. -/
inductive BallDesc where
  | absent
  | str (s : String)
  | inline (resolved : Disc)
deriving Repr

/-- `get_ball` (`objects/base/ball.py` lines 17-53): absent → the default
ball; the string `"disc0"` → the first raw disc is popped and promoted
unchanged (error on an empty disc list); any other string → `ValueError`;
an inline object → the resolved disc with position forced to the origin and
`KICK | SCORE` OR-ed into its collision group. Returns the ball together
with the remaining disc list. -/
def getBall : BallDesc → List Disc → Except String (Disc × List Disc)
  | .absent, discs => .ok (ballDefault, discs)
  | .str s, discs =>
    if s = "disc0" then
      match discs with
      | d :: rest => .ok (d, rest)
      | [] => .error "pop from empty list"
    else
      .error ("Invalid ball value: " ++ s)
  | .inline d, discs =>
    .ok
      ({ d with
          position := ⟨0, 0⟩
          cGroup := d.cGroup ||| (CollisionFlag.KICK ||| CollisionFlag.SCORE) },
        discs)

/-! ## Score and clock

`GameScore` lives in `modules/systems/game_score.py`, which is not under
`src/`; it is modelled from the spec (§3, §4.6). -/

/-- Modelled from the spec: the `GameScore` fields `game.py` reads — goal
counters, elapsed ticks, limits and the animation countdown. -/
structure GameScore where
  red : ℕ
  blue : ℕ
  ticks : ℕ
  timeLimit : ℕ
  scoreLimit : ℕ
  animationTimeout : ℕ
deriving DecidableEq, Repr

/-- Modelled from the spec (§4.6): `is_game_over` is true iff the score
limit is positive and reached by the leading team, or the time limit is
positive and reached (`time = ticks / 60` seconds against
`time_limit · 60`, i.e. `ticks ≥ time_limit · 3600`) while the teams are
not tied. -/
def GameScore.isGameOver (s : GameScore) : Bool :=
  (decide (0 < s.scoreLimit) && decide (s.scoreLimit ≤ max s.red s.blue)) ||
    (decide (0 < s.timeLimit) && decide (s.timeLimit * 3600 ≤ s.ticks) &&
      decide (s.red ≠ s.blue))

/-- Modelled from the spec (§9): `update_score(team)` credits the returned
team tag itself (the goal's own team) with the goal. -/
def GameScore.updateScore (s : GameScore) (team : TeamID) : GameScore :=
  if team = TeamID.red then { s with red := s.red + 1 }
  else { s with blue := s.blue + 1 }

/-- Modelled from the spec (§4.6): `end_animation` arms the fixed 150-tick
animation countdown. -/
def GameScore.endAnimation (s : GameScore) : GameScore :=
  { s with animationTimeout := 150 }

/-! ## Kickoff and playing state handlers (`game.py` lines 135-171) -/

/-- `CollisionFlag.REDKO if self.team_kickoff == TeamID.RED else
CollisionFlag.BLUEKO` (`game.py` lines 139-143). -/
def kickoffCollision (tk : TeamID) : ℕ :=
  if tk = TeamID.red then CollisionFlag.REDKO else CollisionFlag.BLUEKO

/-- The mask assignment of `_handle_kickoff_state` (`game.py` lines
135-147): every player's disc gets
`collision_mask = PLAYER_COLLISION | kickoff_collision`. (The
`position is not None` guard is vacuous in the model: positions are always
present.) -/
def handleKickoffMasks (tk : TeamID) (players : List Player) : List Player :=
  players.map fun p =>
    { p with disc :=
        { p.disc with cMask := PLAYER_COLLISION ||| kickoffCollision tk } }

/-- The mask assignment of `_handle_playing_state` (`game.py` lines
155-157): every player's disc gets `collision_mask = PLAYER_COLLISION`. -/
def handlePlayingMasks (players : List Player) : List Player :=
  players.map fun p =>
    { p with disc := { p.disc with cMask := PLAYER_COLLISION } }

/-- `_handle_playing_state` (`game.py` lines 153-171): reset the players'
masks, run goal detection; on a goal enter the GOAL state, update the
score, and reassign `team_kickoff` only when the updated score is not game
over (`BLUE if team_goal == TeamID.BLUE else RED`); with no goal, enter END
(arming the end animation) when the score is game over, else stay in
PLAYING. Returns (players, state, team_kickoff, score). -/
def handlePlayingState (sg : Stadium) (players : List Player)
    (score : GameScore) (tk : TeamID) (previous : List Disc) :
    List Player × GameState × TeamID × GameScore :=
  let players' := handlePlayingMasks players
  let teamGoal := checkGoal sg previous
  if teamGoal ≠ TeamID.spectator then
    let score' := score.updateScore teamGoal
    let tk' :=
      if ¬ score'.isGameOver then
        (if teamGoal = TeamID.blue then TeamID.blue else TeamID.red)
      else tk
    (players', GameState.goalAnim, tk', score')
  else if score.isGameOver then
    (players', GameState.ended, tk, score.endAnimation)
  else
    (players', GameState.playing, tk, score)

/-! ## `Game.reset_discs_positions` (`game.py` lines 212-267) -/

/-- The disc selection of `reset_discs_positions` (`game.py` lines
213-222): all discs when the stadium's `kickoff_reset` is `"full"`, else
only `discs[0]`. (Python indexes `discs[0]` directly, which requires a
nonempty disc list; `take 1` coincides with `[discs[0]]` on nonempty
lists.) -/
def selDiscs (s : Stadium) : List Disc :=
  if s.kickoffReset = "full" then s.discs else s.discs.take 1

/-- The restore loop `for disc_game, disc_store in zip(discs_game,
discs_store): disc_game.copy(disc_store)` (`game.py` lines 224-225): each
paired game disc is overwritten from the store disc; unpaired game discs
are untouched. `Disc.copy` (in `objects/base/disc.py`, not under `src/`)
is modelled from the spec as restoring every field from the template. -/
def applyCopies (g s : List Disc) : List Disc :=
  List.zipWith (fun _ src => src) g s ++ g.drop s.length

/-- The world-disc part of `reset_discs_positions`: the selected game discs
are restored pairwise from the selected store discs, the remaining game
discs kept. -/
def resetWorldDiscs (sg ss : Stadium) : List Disc :=
  applyCopies (selDiscs sg) (selDiscs ss) ++ sg.discs.drop (selDiscs sg).length

/-- `min(count, len(spawns))` — the spawn-list index used for the k-th
player of a team (`game.py` lines 241 and 256). -/
def spawnIndex (count len : ℕ) : ℕ := min count len

/-- The procedural spawn y-coordinate (`game.py` lines 247-249 and 262-264):
`-55 * (count + 1 >> 1)` when `count` is odd, else `55 * (count + 1 >> 1)`;
Python's `>>` is an integer bit-shift, i.e. floored division by two. -/
def fallbackY (count : ℕ) : ℚ :=
  if count % 2 = 1 then -(55 : ℚ) * (((count + 1) >>> 1 : ℕ) : ℚ)
  else (55 : ℚ) * (((count + 1) >>> 1 : ℕ) : ℚ)

/-- One team's spawn position for its `count`-th player (`game.py` lines
239-251 / 254-266): with a nonempty spawn list, index it at
`min(count, len)` (Python raises `IndexError` when the index is past the
end, modelled as `none`); with an empty list, fall back to
`(xFallback, fallbackY count)` where `xFallback` is `-spawn_distance` for
red and `+spawn_distance` for blue. -/
def playerSpawnPos (spawns : List Vec2) (xFallback : ℚ) (count : ℕ) :
    Option Vec2 :=
  if 0 < spawns.length then
    spawns.get? (spawnIndex count spawns.length)
  else
    some ⟨xFallback, fallbackY count⟩

/-- The per-player disc rebuild of `reset_discs_positions` (`game.py` lines
232-236): the disc is restored from the `player_physics` template, the
team flag (`RED` for red players, `BLUE` otherwise) is OR-ed into its
collision group and `player_id` is set. (`set_color` only affects
rendering.) -/
def resetPlayerCommon (ss : Stadium) (p : Player) : Disc :=
  let d := ss.playerPhysics
  { d with
    cGroup := d.cGroup |||
      (if p.team = TeamID.red then CollisionFlag.RED else CollisionFlag.BLUE)
    playerId := some p.id }

/-- The player loop of `reset_discs_positions` (`game.py` lines 227-267)
with explicit `red_count` / `blue_count` accumulators: red and blue players
are positioned via `playerSpawnPos` and their team counter incremented;
spectators keep the template position. `none` models the `IndexError` a
too-short spawn list raises. -/
def resetPlayersAux (ss : Stadium) (spawnDistance : ℚ) :
    ℕ → ℕ → List Player → Option (List Player)
  | _, _, [] => some []
  | redCount, blueCount, p :: rest =>
    let disc' := resetPlayerCommon ss p
    match p.team with
    | TeamID.red =>
      match playerSpawnPos ss.redSpawnPoints (-spawnDistance) redCount with
      | some pos =>
        (resetPlayersAux ss spawnDistance (redCount + 1) blueCount rest).map
          (fun l => { p with disc := { disc' with position := pos } } :: l)
      | none => none
    | TeamID.blue =>
      match playerSpawnPos ss.blueSpawnPoints spawnDistance blueCount with
      | some pos =>
        (resetPlayersAux ss spawnDistance redCount (blueCount + 1) rest).map
          (fun l => { p with disc := { disc' with position := pos } } :: l)
      | none => none
    | TeamID.spectator =>
      (resetPlayersAux ss spawnDistance redCount blueCount rest).map
        (fun l => { p with disc := disc' } :: l)

/-- `Game.reset_discs_positions` (`game.py` lines 212-267): restore the
selected world discs from the store template, then re-place every player's
disc (the player loop does not depend on the `kickoff_reset` mode; the
spawn distance is read from the game stadium, the template and spawn lists
from the store). -/
def resetDiscsPositions (sg ss : Stadium) (players : List Player) :
    List Disc × Option (List Player) :=
  (resetWorldDiscs sg ss, resetPlayersAux ss sg.spawnDistance 0 0 players)

/-! ## `GameActionRecorder` (`game/modules/systems/game_recorder.py`)

The msgpack encoding used by `save` / `read_from_file` is an external
library, modelled as a faithful serialization: the file content is the
`Recording` value itself. -/

/-- Modelled from the spec (§6): the input bit constants from
`game/common_values.py` (not under `src/`) — distinct bits of the packed
8-bit per-tick integer. -/
def INPUT_UP : ℤ := 1

/-- Modelled from the spec (§6): see `INPUT_UP`. -/
def INPUT_DOWN : ℤ := 2

/-- Modelled from the spec (§6): see `INPUT_UP`. -/
def INPUT_LEFT : ℤ := 4

/-- Modelled from the spec (§6): see `INPUT_UP`. -/
def INPUT_RIGHT : ℤ := 8

/-- Modelled from the spec (§6): see `INPUT_UP`. -/
def INPUT_SHOOT : ℤ := 16

/-- `input_translate_js` (`game_recorder.py` lines 18-34): pack an action
triple into one integer — LEFT/RIGHT from `actions[0]`, DOWN/UP from
`actions[1]`, SHOOT when `actions[2]` is truthy. -/
def inputTranslateJS (a : ℤ × ℤ × ℤ) : ℤ :=
  (if a.1 = -1 then INPUT_LEFT else if a.1 = 1 then INPUT_RIGHT else 0) +
    (if a.2.1 = -1 then INPUT_DOWN else if a.2.1 = 1 then INPUT_UP else 0) +
    (if a.2.2 ≠ 0 then INPUT_SHOOT else 0)

/-- One entry of the recorder's `player_info` list:
`[player.name, f"{player.id}", player.team]`. -/
structure PlayerInfo where
  name : String
  idStr : String
  team : ℤ
deriving DecidableEq, Repr

/-- The saved recording `[options_int, [[player_info, action_stream], …]]`
built by `GameActionRecorder.stop`. -/
structure Recording where
  options : ℤ
  players : List (PlayerInfo × List ℤ)
deriving DecidableEq, Repr

/-- The mutable fields of `GameActionRecorder` the recording logic uses. -/
structure RecorderState where
  playerInfo : List PlayerInfo
  playerAction : List (List ℤ)
  options : List ℤ
deriving DecidableEq, Repr

/-- `GameActionRecorder.start` (`game_recorder.py` lines 58-63): one info
entry and one empty action stream per player, and
`options = [team_kickoff * 8]`. -/
def recorderStart (infos : List PlayerInfo) (teamKickoffInt : ℤ) :
    RecorderState :=
  { playerInfo := infos
    playerAction := infos.map (fun _ => [])
    options := [teamKickoffInt * 8] }

/-- `GameActionRecorder.step` (`game_recorder.py` lines 65-67): append the
packed integer of the i-th action row to the i-th player's stream. (Python
indexes `player_action[i]` for each enumerated action, so the row count
never exceeds the player count in a recorded game; the `zipWith` model
coincides there.) -/
def recorderStep (s : RecorderState) (actions : List (ℤ × ℤ × ℤ)) :
    RecorderState :=
  { s with
    playerAction :=
      List.zipWith (fun pa a => pa ++ [inputTranslateJS a]) s.playerAction
          actions ++
        s.playerAction.drop actions.length }

/-- The recording built by `GameActionRecorder.stop` (`game_recorder.py`
lines 69-77): when `options` is nonempty, `[options[0],
zip(player_info, player_action)]` is assembled (and saved when
`save=True`); otherwise nothing is produced. The subsequent clearing of
the in-memory fields does not affect the saved value. -/
def recorderStop (s : RecorderState) : Option Recording :=
  match s.options with
  | o :: _ => some ⟨o, s.playerInfo.zip s.playerAction⟩
  | [] => none

/-- `GameActionRecorder.read_from_file` (`game_recorder.py` lines 89-94):
from the decoded recording, `options = [recording[0]]`, `player_info` the
first components and `player_action` the second components. -/
def readFromFile (r : Recording) : RecorderState :=
  { playerInfo := r.players.map Prod.fst
    playerAction := r.players.map Prod.snd
    options := [r.options] }

/-! ## The recorder call inside `Game.step` (`game.py` line 297)

When `enable_recorder` is set, `Game.step` ends the tick with
`self.recorder.step(actions)` on the same (normalized) action rows it
zipped with the players. `GameActionRecorder.step` enumerates every row
and indexes `self.player_action[i]`, so a mismatched row count is not
silent there: extra rows raise `IndexError`, which propagates out of
`Game.step` to the caller. -/

/-- The triple `(actions[0], actions[1], actions[2])` that
`input_translate_js` (`game_recorder.py` lines 18-34) reads positionally
from one normalized action row; `none` models the `IndexError` raised on a
row with fewer than three cells. -/
def rowTriple (r : List ℤ) : Option (ℤ × ℤ × ℤ) :=
  match r[0]?, r[1]?, r[2]? with
  | some dx, some dy, some k => some (dx, dy, k)
  | _, _, _ => Option.none

/-- `GameActionRecorder.step` as invoked from `Game.step` (`game.py` line
297; `game_recorder.py` lines 65-67): every row is translated by
`input_translate_js` and appended to `player_action[i]`. `Except.error ()`
models the `IndexError` raised when there are more rows than per-player
streams (`player_action[i]` out of range) or when a row is shorter than
three cells (inside `input_translate_js`); the exception aborts the tick
and surfaces to `Game.step`'s caller. (Python appends the rows preceding
the raise before the exception propagates; that partially mutated recorder
is not carried by the error value, as the tick aborts.) -/
def recorderStepGame (s : RecorderState) (rows : List (List ℤ)) :
    Except Unit RecorderState :=
  match rows.mapM rowTriple with
  | Option.none => Except.error ()
  | Option.some triples =>
    if rows.length ≤ s.playerAction.length then
      Except.ok (recorderStep s triples)
    else
      Except.error ()

/-- The complete action path of one `Game.step` tick (`game.py` lines
278-301): the zip pass stores the normalized actions on the zipped
players; then, when a recorder is attached, `recorder.step` consumes the
same normalized rows — with recording off a row-count mismatch raises
nothing, with recording on an excess row count raises `IndexError` to the
caller. -/
def stepActions (players : List Player) (actions : List PyAction) :
    Option RecorderState → Except Unit (List Player × Option RecorderState)
  | Option.none => Except.ok (stepApplyActions players actions, Option.none)
  | Option.some s =>
    match recorderStepGame s (actions.map normalizeAction) with
    | Except.ok s' =>
      Except.ok (stepApplyActions players actions, Option.some s')
    | Except.error e => Except.error e

/-! ## Concrete sample values

Small concrete inputs (a classic-like player disc, a red goal on the line
`x = -5`, a ball crossing it in one tick) used to instantiate the theorems
below on executable data. -/

/-- A sample player disc, with the classic player-physics numbers. -/
def sampleDisc : Disc :=
  { position := ⟨0, 0⟩
    velocity := ⟨0, 0⟩
    gravity := ⟨0, 0⟩
    radius := 15
    invMass := 1
    damping := 24 / 25
    bCoef := 1 / 2
    color := (255, 255, 255, 255)
    cGroup := CollisionFlag.RED
    cMask := CollisionFlag.ALL
    playerId := none }

/-- A sample red-team player. -/
def samplePlayer : Player := ⟨TeamID.red, 0, sampleDisc, [0, 0, 0]⟩

/-- A sample blue-team player. -/
def samplePlayerBlue : Player := ⟨TeamID.blue, 1, sampleDisc, [0, 0, 0]⟩

/-- A sample red goal whose goal line is the segment from `(-5, -5)` to
`(-5, 5)`. -/
def sampleGoal : Goal := ⟨⟨-5, -5⟩, ⟨-5, 5⟩, "red"⟩

/-- The ball one tick before a goal: at the origin, score-flagged. -/
def sampleBallPrev : Disc :=
  { ballDefault with
    cGroup := CollisionFlag.BALL ||| CollisionFlag.KICK |||
      CollisionFlag.SCORE }

/-- The same ball after one tick, having crossed the sample goal line. -/
def sampleBallCur : Disc := { sampleBallPrev with position := ⟨-10, 0⟩ }

/-- A sample stadium holding the crossed ball and the sample goal, with
empty spawn-point lists. -/
def sampleStadium : Stadium :=
  { discs := [sampleBallCur]
    goals := [sampleGoal]
    kickoffReset := "partial"
    spawnDistance := 400
    redSpawnPoints := []
    blueSpawnPoints := []
    playerPhysics := sampleDisc }

/-- A sample stadium-store template with two world discs at rest. -/
def storeStadium : Stadium :=
  { sampleStadium with discs := [ballDefault, sampleDisc] }

/-- The live counterpart of `storeStadium` after play: both discs have
moved. -/
def movedStadium : Stadium :=
  { storeStadium with
    discs := [sampleBallCur, { sampleDisc with position := ⟨7, 8⟩ }] }

/-! ## Helper lemmas -/

/-- A bitmask OR-ed with a constant containing bit `j` has a non-zero AND
with any flag containing bit `j`. -/
theorem or_and_flag_ne_zero (x m f j : ℕ) (hm : m.testBit j = true)
    (hf : f.testBit j = true) : (x ||| m) &&& f ≠ 0 := by
  intro h
  have ht : ((x ||| m) &&& f).testBit j = false := by rw [h]; simp
  rw [Nat.testBit_and, Nat.testBit_or, hm, hf] at ht
  simp at ht

/-! ## Claim C3 -/

/-- Claim C3, counterexample: `normalize_action` performs no clamping — the
out-of-range row `[5, 0, 0]` is stored on the player as-is, and `5` is not
in `{-1, 0, 1}`. -/
theorem claimC3_counterexample :
    (makePlayerAction samplePlayer
        (PyAction.list [some 5, some 0, some 0])).action = [5, 0, 0] ∧
      ¬((5 : ℤ) = -1 ∨ (5 : ℤ) = 0 ∨ (5 : ℤ) = 1) :=
  ⟨rfl, by decide⟩

/-- Claim C3 as amended: after `make_player_action`, a `None` action or a
non-sequence action is stored as `[0, 0, 0]`, and a list action is stored
cell by cell with every `None` cell replaced by `0`; no clamping is
applied and no missing cell is padded. -/
theorem claimC3_make_player_action (p : Player) (cells : List (Option ℤ))
    (i : ℕ) :
    (makePlayerAction p PyAction.none).action = [0, 0, 0] ∧
      (makePlayerAction p PyAction.other).action = [0, 0, 0] ∧
      (makePlayerAction p (PyAction.list cells)).action[i]? =
        cells[i]?.map (fun c => c.getD 0) := by
  refine ⟨rfl, rfl, ?_⟩
  simp [makePlayerAction, normalizeAction]

/-! ## Claim C4 -/

/-- Claim C4, counterexample: `Game.step` performs no player-count
validation and the claimed failure is absent on part of the claimed
domain in every configuration — with one player and an empty actions
array the tick's action path completes normally, leaving the unmatched
player untouched, with the recorder both absent and attached; no
`ActionShapeError` exists in the code. -/
theorem claimC4_counterexample :
    stepApplyActions [samplePlayer] [] = [samplePlayer] ∧
      stepApplyActions [] [PyAction.none] = [] ∧
      stepActions [samplePlayer] [] Option.none =
        Except.ok ([samplePlayer], Option.none) ∧
      stepActions [samplePlayer] []
          (Option.some (recorderStart [⟨"P0", "0", 1⟩] 1)) =
        Except.ok ([samplePlayer],
          Option.some (recorderStart [⟨"P0", "0", 1⟩] 1)) :=
  ⟨rfl, rfl, rfl, rfl⟩

/-- Claim C4 as amended: `Game.step` performs no player-count validation
and no `ActionShapeError` exists. The zip pass preserves the player
count, players beyond the action row count keep their previous state, and
each player paired with a row gets that row's normalized action. With the
recorder disabled a row-count mismatch raises nothing; with the recorder
enabled and every row well-formed, the tick completes when the row count
is at most the recorded player count, and an excess row count makes the
recorder's per-row indexing raise `IndexError`, surfaced to the caller. -/
theorem claimC4_step_zip (players : List Player) (actions : List PyAction)
    (s : RecorderState) :
    (stepApplyActions players actions).length = players.length ∧
      (∀ i : ℕ, actions.length ≤ i →
        (stepApplyActions players actions)[i]? = players[i]?) ∧
      (∀ (i : ℕ) (a : PyAction) (p : Player), actions[i]? = some a →
        players[i]? = some p →
        (stepApplyActions players actions)[i]? =
          some (makePlayerAction p a)) ∧
      stepActions players actions Option.none =
        Except.ok (stepApplyActions players actions, Option.none) ∧
      (∀ triples : List (ℤ × ℤ × ℤ),
        (actions.map normalizeAction).mapM rowTriple =
          Option.some triples →
        (actions.length ≤ s.playerAction.length →
          stepActions players actions (Option.some s) =
            Except.ok (stepApplyActions players actions,
              Option.some (recorderStep s triples))) ∧
        (s.playerAction.length < actions.length →
          stepActions players actions (Option.some s) =
            Except.error ())) := by
  have hz : (List.zipWith (fun a p => makePlayerAction p a) actions
      players).length = min actions.length players.length :=
    List.length_zipWith _ _ _
  refine ⟨?_, ?_, ?_, rfl, ?_⟩
  · simp only [stepApplyActions, List.length_append, hz, List.length_drop]
    omega
  · intro i hi
    rcases le_or_lt actions.length players.length with hle | hlt
    · rw [stepApplyActions, List.getElem?_append_right (by omega),
        List.getElem?_drop]
      congr 1
      omega
    · rw [stepApplyActions, List.getElem?_append_right (by omega),
        List.drop_eq_nil_of_le (by omega)]
      have : players.length ≤ i := by omega
      simp [List.getElem?_eq_none this]
  · intro i a p ha hp
    have hia : i < actions.length := by
      by_contra hcon
      rw [List.getElem?_eq_none (by omega)] at ha
      exact Option.noConfusion ha
    have hip : i < players.length := by
      by_contra hcon
      rw [List.getElem?_eq_none (by omega)] at hp
      exact Option.noConfusion hp
    rw [stepApplyActions, List.getElem?_append_left (by omega),
      List.getElem?_zipWith, ha, hp]
  · intro triples htr
    constructor
    · intro hle
      have hrg : recorderStepGame s (actions.map normalizeAction) =
          Except.ok (recorderStep s triples) := by
        rw [recorderStepGame, htr]
        dsimp only
        rw [List.length_map, if_pos hle]
      simp [stepActions, hrg]
    · intro hlt
      have hrg : recorderStepGame s (actions.map normalizeAction) =
          Except.error () := by
        rw [recorderStepGame, htr]
        dsimp only
        rw [List.length_map, if_neg (by omega)]
      simp [stepActions, hrg]

/-! ## Claim C1 -/

/-- `check_goal` returns `TeamID.RED` or `TeamID.BLUE` for a matched goal,
never `SPECTATOR`. -/
theorem teamOfGoal_ne_spectator (g : Goal) :
    teamOfGoal g ≠ TeamID.spectator := by
  unfold teamOfGoal
  split <;> simp

/-- Specification of the nested scanning loops of `check_goal`: a
non-SPECTATOR result is returned exactly when some disc pair and goal
satisfy the crossing condition, and the result is then the matched goal's
team. -/
theorem checkGoalAux_spec (pairs : List (Disc × Disc)) (goals : List Goal) :
    (checkGoalAux pairs goals ≠ TeamID.spectator ↔
      ∃ pc ∈ pairs, ∃ g ∈ goals,
        goalCondB pc.1.position pc.2.position g = true) ∧
    (checkGoalAux pairs goals ≠ TeamID.spectator →
      ∃ pc ∈ pairs, ∃ g ∈ goals,
        goalCondB pc.1.position pc.2.position g = true ∧
          checkGoalAux pairs goals = teamOfGoal g) := by
  induction pairs with
  | nil => simp [checkGoalAux]
  | cons pc rest ih =>
    obtain ⟨prev, cur⟩ := pc
    rcases hfind : goals.find?
        (fun g => goalCondB prev.position cur.position g) with _ | g
    · have hall := List.find?_eq_none.mp hfind
      have hstep : checkGoalAux ((prev, cur) :: rest) goals =
          checkGoalAux rest goals := by
        simp [checkGoalAux, hfind]
      rw [hstep]
      constructor
      · rw [ih.1]
        constructor
        · rintro ⟨pc', hmem, g', hg', hcond⟩
          exact ⟨pc', List.mem_cons_of_mem _ hmem, g', hg', hcond⟩
        · rintro ⟨pc', hmem, g', hg', hcond⟩
          rcases List.mem_cons.mp hmem with heq | hmem'
          · subst heq
            exact absurd hcond (by simpa using hall g' hg')
          · exact ⟨pc', hmem', g', hg', hcond⟩
      · intro hne
        obtain ⟨pc', hmem, g', hg', hcond, hres⟩ := ih.2 hne
        exact ⟨pc', List.mem_cons_of_mem _ hmem, g', hg', hcond, hres⟩
    · have hcond := List.find?_some hfind
      have hmemg := List.mem_of_find?_eq_some hfind
      have hstep : checkGoalAux ((prev, cur) :: rest) goals = teamOfGoal g := by
        simp [checkGoalAux, hfind]
      rw [hstep]
      refine ⟨⟨fun _ => ⟨(prev, cur), List.mem_cons_self _ _, g, hmemg, hcond⟩,
        fun _ => teamOfGoal_ne_spectator g⟩, fun _ =>
        ⟨(prev, cur), List.mem_cons_self _ _, g, hmemg, hcond, rfl⟩⟩

/-- Claim C1 (confirmed): `check_goal` signals a goal (returns a team other
than SPECTATOR) exactly when some zipped (previous, current) score-flagged
disc pair and some goal satisfy the crossing condition
`cross(cur−p0, motion) * cross(cur−p1, motion) ≤ 0` and
`cross(prev−p0, goalline) * cross(cur−p0, goalline) ≤ 0`; when it signals,
the returned value is `teamOfGoal` of a satisfying goal (RED for a goal
tagged "red", BLUE otherwise), and it returns SPECTATOR when no pair
satisfies the condition. -/
theorem claimC1_check_goal (sg : Stadium) (previous : List Disc) :
    (checkGoal sg previous ≠ TeamID.spectator ↔
      ∃ pc ∈ previous.zip (sg.discs.filter
          (fun d => d.cGroup &&& CollisionFlag.SCORE != 0)),
        ∃ g ∈ sg.goals,
          goalCondB pc.1.position pc.2.position g = true) ∧
    (checkGoal sg previous ≠ TeamID.spectator →
      ∃ pc ∈ previous.zip (sg.discs.filter
          (fun d => d.cGroup &&& CollisionFlag.SCORE != 0)),
        ∃ g ∈ sg.goals,
          goalCondB pc.1.position pc.2.position g = true ∧
            checkGoal sg previous = teamOfGoal g) :=
  checkGoalAux_spec _ _

unseal Rat.mul Rat.sub Rat.add in
/-- Witness for claim C1 at a concrete input: the sample ball moving from
the origin to `(-10, 0)` crosses the sample red goal line `x = -5`, and
`check_goal` returns that goal's team. -/
theorem claimC1_witness :
    ∃ pc ∈ [sampleBallPrev].zip (sampleStadium.discs.filter
        (fun d => d.cGroup &&& CollisionFlag.SCORE != 0)),
      ∃ g ∈ sampleStadium.goals,
        goalCondB pc.1.position pc.2.position g = true ∧
          checkGoal sampleStadium [sampleBallPrev] = teamOfGoal g :=
  (claimC1_check_goal sampleStadium [sampleBallPrev]).2 (by decide)

/-! ## Claim C2 -/

/-- Claim C2, counterexample: in resolution form (a) — ball descriptor
absent — the synthesized default ball's collision group is the bare `ball`
flag: it contains neither the `kick` nor the `score` flag. -/
theorem claimC2_counterexample :
    getBall BallDesc.absent [] = Except.ok (ballDefault, []) ∧
      ballDefault.cGroup &&& CollisionFlag.KICK = 0 ∧
      ballDefault.cGroup &&& CollisionFlag.SCORE = 0 :=
  ⟨rfl, rfl, rfl⟩

/-- Claim C2 as amended: of the three resolution forms, only the inline
form (c) guarantees the kick and score flags — there the resolved ball's
group is the inline disc's group OR-ed with `kick|score` and its position
is forced to the origin; form (a) synthesizes the default ball whose group
is exactly the `ball` flag, and form (b) promotes the first raw disc with
its own collision group unchanged. -/
theorem claimC2_get_ball (discs rest : List Disc) (d b : Disc) :
    getBall BallDesc.absent discs = Except.ok (ballDefault, discs) ∧
      ballDefault.cGroup = CollisionFlag.BALL ∧
      getBall (BallDesc.str "disc0") (d :: rest) = Except.ok (d, rest) ∧
      (∃ b', getBall (BallDesc.inline b) discs = Except.ok (b', discs) ∧
        b'.cGroup = b.cGroup ||| (CollisionFlag.KICK ||| CollisionFlag.SCORE) ∧
        b'.cGroup &&& CollisionFlag.KICK ≠ 0 ∧
        b'.cGroup &&& CollisionFlag.SCORE ≠ 0 ∧
        b'.position = ⟨0, 0⟩) := by
  refine ⟨rfl, rfl, rfl, ⟨_, rfl, rfl, ?_, ?_, rfl⟩⟩
  · exact or_and_flag_ne_zero b.cGroup _ _ 6 (by decide) (by decide)
  · exact or_and_flag_ne_zero b.cGroup _ _ 7 (by decide) (by decide)

/-! ## Claim C5 -/

/-- Claim C5 (confirmed): after the KICKOFF-state tick handler, every
player disc — in particular every non-kickoff-team player disc — has the
kickoff-barrier flag in its collision mask (`REDKO` when `team_kickoff` is
RED, `BLUEKO` when BLUE); after the PLAYING-state tick handler, no player
disc's collision mask contains either barrier flag. -/
theorem claimC5_kickoff_masks (tk : TeamID) (players : List Player) :
    (∀ p ∈ handleKickoffMasks tk players, p.team ≠ tk →
      p.disc.cMask &&& (if tk = TeamID.red then CollisionFlag.REDKO
        else CollisionFlag.BLUEKO) ≠ 0) ∧
      (∀ p ∈ handlePlayingMasks players,
        p.disc.cMask &&& CollisionFlag.REDKO = 0 ∧
          p.disc.cMask &&& CollisionFlag.BLUEKO = 0) := by
  have hmask : ∀ t : TeamID, (PLAYER_COLLISION ||| kickoffCollision t) &&&
      (if t = TeamID.red then CollisionFlag.REDKO
        else CollisionFlag.BLUEKO) ≠ 0 := by
    intro t
    cases t <;> decide
  have hred : PLAYER_COLLISION &&& CollisionFlag.REDKO = 0 := by decide
  have hblue : PLAYER_COLLISION &&& CollisionFlag.BLUEKO = 0 := by decide
  constructor
  · intro p hp _
    simp only [handleKickoffMasks, List.mem_map] at hp
    obtain ⟨q, _, rfl⟩ := hp
    exact hmask tk
  · intro p hp
    simp only [handlePlayingMasks, List.mem_map] at hp
    obtain ⟨q, _, rfl⟩ := hp
    exact ⟨hred, hblue⟩

/-- Witness for claim C5 at a concrete input: a blue player while RED kicks
off carries `REDKO` in its mask during KICKOFF and no barrier flag during
PLAYING. -/
theorem claimC5_witness :
    ({ samplePlayerBlue with disc := { samplePlayerBlue.disc with
        cMask := PLAYER_COLLISION ||| kickoffCollision TeamID.red } } :
          Player).disc.cMask &&&
        (if TeamID.red = TeamID.red then CollisionFlag.REDKO
          else CollisionFlag.BLUEKO) ≠ 0 ∧
      (({ samplePlayerBlue with disc := { samplePlayerBlue.disc with
          cMask := PLAYER_COLLISION } } : Player).disc.cMask &&&
          CollisionFlag.REDKO = 0 ∧
        ({ samplePlayerBlue with disc := { samplePlayerBlue.disc with
            cMask := PLAYER_COLLISION } } : Player).disc.cMask &&&
          CollisionFlag.BLUEKO = 0) :=
  ⟨(claimC5_kickoff_masks TeamID.red [samplePlayerBlue]).1 _
      (List.mem_cons_self _ _) (by decide),
    (claimC5_kickoff_masks TeamID.red [samplePlayerBlue]).2 _
      (List.mem_cons_self _ _)⟩

/-! ## Claim C6 -/

unseal Rat.mul Rat.sub Rat.add in
/-- Claim C6, counterexample: with score limit 1 and `team_kickoff = BLUE`,
a goal detected for team RED ends the game, and `team_kickoff` is left at
BLUE — not set to RED as the claim requires for every goal. -/
theorem claimC6_counterexample :
    checkGoal sampleStadium [sampleBallPrev] = TeamID.red ∧
      handlePlayingState sampleStadium [] ⟨0, 0, 0, 0, 1, 0⟩ TeamID.blue
          [sampleBallPrev] =
        ([], GameState.goalAnim, TeamID.blue, ⟨1, 0, 0, 0, 1, 0⟩) ∧
      TeamID.blue ≠ TeamID.red := by
  refine ⟨by decide, by decide, by decide⟩

/-- Claim C6 as amended: after a goal detected in the PLAYING state,
`team_kickoff` becomes BLUE if the goal's team is BLUE and RED otherwise
— but only when the updated score is not game over; when the goal ends the
game, `team_kickoff` is left unchanged. -/
theorem claimC6_team_kickoff (sg : Stadium) (players : List Player)
    (score : GameScore) (tk : TeamID) (previous : List Disc)
    (hgoal : checkGoal sg previous ≠ TeamID.spectator) :
    ((score.updateScore (checkGoal sg previous)).isGameOver = false →
      (handlePlayingState sg players score tk previous).2.2.1 =
        (if checkGoal sg previous = TeamID.blue then TeamID.blue
          else TeamID.red)) ∧
      ((score.updateScore (checkGoal sg previous)).isGameOver = true →
        (handlePlayingState sg players score tk previous).2.2.1 = tk) := by
  constructor <;> intro h <;>
    simp only [handlePlayingState, if_pos hgoal, h] <;> simp

unseal Rat.mul Rat.sub Rat.add in
/-- Witness for the amended claim C6 at a concrete input: with no limits
set the sample goal does not end the game, and `team_kickoff` becomes RED
(the goal's team). -/
theorem claimC6_witness :
    (handlePlayingState sampleStadium [] ⟨0, 0, 0, 0, 0, 0⟩ TeamID.blue
        [sampleBallPrev]).2.2.1 =
      (if checkGoal sampleStadium [sampleBallPrev] = TeamID.blue then
        TeamID.blue else TeamID.red) :=
  (claimC6_team_kickoff sampleStadium [] ⟨0, 0, 0, 0, 0, 0⟩ TeamID.blue
      [sampleBallPrev] (by decide)).1 (by decide)

/-- Witness for the amended claim C4 at concrete inputs: with two players
and one action row, player 1 is untouched and player 0 receives the
normalized row; and with one recorded player and two action rows, the
recorder call inside `step` raises `IndexError` to the caller. -/
theorem claimC4_witness :
    (stepApplyActions [samplePlayer, samplePlayerBlue] [PyAction.none])[1]? =
        some samplePlayerBlue ∧
      (stepApplyActions [samplePlayer, samplePlayerBlue]
          [PyAction.none])[0]? =
        some (makePlayerAction samplePlayer PyAction.none) ∧
      stepActions [samplePlayer] [PyAction.none, PyAction.none]
          (Option.some (recorderStart [⟨"P0", "0", 1⟩] 1)) =
        Except.error () :=
  ⟨(claimC4_step_zip [samplePlayer, samplePlayerBlue] [PyAction.none]
      (recorderStart [⟨"P0", "0", 1⟩] 1)).2.1 1 (by decide),
    (claimC4_step_zip [samplePlayer, samplePlayerBlue] [PyAction.none]
      (recorderStart [⟨"P0", "0", 1⟩] 1)).2.2.1 0
      PyAction.none samplePlayer rfl rfl,
    ((claimC4_step_zip [samplePlayer] [PyAction.none, PyAction.none]
      (recorderStart [⟨"P0", "0", 1⟩] 1)).2.2.2.2
      [(0, 0, 0), (0, 0, 0)] rfl).2 (by decide)⟩

/-! ## Claim C7 -/

/-- The restore loop leaves the game-disc count unchanged. -/
theorem applyCopies_length (g s : List Disc) :
    (applyCopies g s).length = g.length := by
  simp only [applyCopies, List.length_append, List.length_zipWith,
    List.length_drop]
  omega

/-- Within the zipped range, the restore loop yields the store disc. -/
theorem applyCopies_getElem?_lt (g s : List Disc) (i : ℕ)
    (hi : i < s.length) (hig : i < g.length) :
    (applyCopies g s)[i]? = s[i]? := by
  have h1 : (List.zipWith (fun _ src => src) g s).length =
      min g.length s.length := List.length_zipWith _ _ _
  rw [applyCopies, List.getElem?_append_left (by omega),
    List.getElem?_zipWith, List.getElem?_eq_getElem hig,
    List.getElem?_eq_getElem hi]

/-- Beyond the store list, the restore loop leaves game discs untouched. -/
theorem applyCopies_getElem?_ge (g s : List Disc) (i : ℕ)
    (hi : s.length ≤ i) : (applyCopies g s)[i]? = g[i]? := by
  have h1 : (List.zipWith (fun _ src => src) g s).length =
      min g.length s.length := List.length_zipWith _ _ _
  rcases le_or_lt g.length i with hge | hlt
  · rw [List.getElem?_eq_none (by rw [applyCopies_length]; omega),
      List.getElem?_eq_none hge]
  · rw [applyCopies, List.getElem?_append_right (by omega),
      List.getElem?_drop]
    congr 1
    omega

/-- The player loop reads only the spawn lists and the physics template of
the store stadium, never its `kickoff_reset` mode. -/
theorem resetPlayersAux_congr (ss ss' : Stadium)
    (h1 : ss.redSpawnPoints = ss'.redSpawnPoints)
    (h2 : ss.blueSpawnPoints = ss'.blueSpawnPoints)
    (h3 : ss.playerPhysics = ss'.playerPhysics) (d : ℚ) :
    ∀ (players : List Player) (rc bc : ℕ),
      resetPlayersAux ss d rc bc players =
        resetPlayersAux ss' d rc bc players := by
  intro players
  induction players with
  | nil => intro rc bc; rfl
  | cons p rest ih =>
    intro rc bc
    cases hteam : p.team <;>
      simp only [resetPlayersAux, hteam, resetPlayerCommon, h1, h2, h3, ih]

/-- Claim C7 (confirmed): when `kickoff_reset` is not `"full"`,
`reset_discs_positions` restores only `discs[0]` from the store template
and leaves every other non-player world disc unchanged; when it is
`"full"`, every world disc (the zipped range of the store template) is
restored; and the player re-placement does not depend on the mode at
all. -/
theorem claimC7_reset_discs (sg ss : Stadium) (players : List Player) :
    (sg.kickoffReset ≠ "full" → ss.kickoffReset ≠ "full" →
      sg.discs ≠ [] → ss.discs ≠ [] →
      (resetDiscsPositions sg ss players).1[0]? = ss.discs[0]? ∧
        ∀ i : ℕ, 1 ≤ i →
          (resetDiscsPositions sg ss players).1[i]? = sg.discs[i]?) ∧
      (sg.kickoffReset = "full" → ss.kickoffReset = "full" →
        ∀ i : ℕ, i < ss.discs.length → i < sg.discs.length →
          (resetDiscsPositions sg ss players).1[i]? = ss.discs[i]?) ∧
      (∀ r r' : String,
        (resetDiscsPositions { sg with kickoffReset := r }
            { ss with kickoffReset := r' } players).2 =
          (resetDiscsPositions sg ss players).2) := by
  refine ⟨?_, ?_, ?_⟩
  · intro hm1 hm2 hg hs
    obtain ⟨gd, gtl, hgeq⟩ := List.exists_cons_of_ne_nil hg
    obtain ⟨sd, stl, hseq⟩ := List.exists_cons_of_ne_nil hs
    have hsel : resetWorldDiscs sg ss = sd :: sg.discs.drop 1 := by
      rw [resetWorldDiscs, selDiscs, selDiscs, if_neg hm1, if_neg hm2, hgeq,
        hseq]
      simp [applyCopies]
    constructor
    · rw [show (resetDiscsPositions sg ss players).1 = resetWorldDiscs sg ss
        from rfl, hsel, hseq]
      simp
    · intro i hi
      obtain ⟨n, rfl⟩ : ∃ n, i = n + 1 := ⟨i - 1, by omega⟩
      rw [show (resetDiscsPositions sg ss players).1 = resetWorldDiscs sg ss
        from rfl, hsel]
      simp only [List.getElem?_cons_succ, List.getElem?_drop]
      congr 1
      omega
  · intro hm1 hm2 i hi hig
    have hsel : resetWorldDiscs sg ss = applyCopies sg.discs ss.discs := by
      rw [resetWorldDiscs, selDiscs, selDiscs, if_pos hm1, if_pos hm2,
        List.drop_length, List.append_nil]
    rw [show (resetDiscsPositions sg ss players).1 = resetWorldDiscs sg ss
      from rfl, hsel]
    exact applyCopies_getElem?_lt _ _ _ hi hig
  · intro r r'
    exact resetPlayersAux_congr { ss with kickoffReset := r' } ss rfl rfl rfl
      sg.spawnDistance players 0 0

/-- Witness for claim C7 at concrete inputs: with the partial-mode sample
stadium the ball (index 0) is restored from the store and the moved second
disc keeps its position; with both stadiums switched to full mode the ball
is restored as well. -/
theorem claimC7_witness :
    (resetDiscsPositions movedStadium storeStadium []).1[0]? =
        storeStadium.discs[0]? ∧
      (resetDiscsPositions movedStadium storeStadium []).1[1]? =
        movedStadium.discs[1]? ∧
      (resetDiscsPositions { movedStadium with kickoffReset := "full" }
          { storeStadium with kickoffReset := "full" } []).1[0]? =
        ({ storeStadium with kickoffReset := "full" } : Stadium).discs[0]? :=
  ⟨((claimC7_reset_discs movedStadium storeStadium []).1 (by decide)
      (by decide) (by decide) (by decide)).1,
    ((claimC7_reset_discs movedStadium storeStadium []).1 (by decide)
      (by decide) (by decide) (by decide)).2 1 (by decide),
    (claimC7_reset_discs { movedStadium with kickoffReset := "full" }
      { storeStadium with kickoffReset := "full" } []).2.1 rfl rfl 0
      (by decide) (by decide)⟩

/-! ## Claim C8 -/

/-- With an empty red spawn list, the red players produced by the player
loop started at counter `rc` sit at `x = -spawn_distance` with the
procedural y-coordinates `fallbackY rc, fallbackY (rc+1), …` in roster
order. -/
theorem resetPlayersAux_red_pos (ss : Stadium) (d : ℚ)
    (hred : ss.redSpawnPoints = []) :
    ∀ (players : List Player) (rc bc : ℕ) (res : List Player),
      resetPlayersAux ss d rc bc players = some res →
      (res.filter (fun p => p.team == TeamID.red)).map
          (fun p => p.disc.position) =
        (List.range
            ((players.filter (fun p => p.team == TeamID.red)).length)).map
          (fun k => (⟨-d, fallbackY (rc + k)⟩ : Vec2)) := by
  intro players
  induction players with
  | nil =>
    intro rc bc res h
    simp only [resetPlayersAux, Option.some.injEq] at h
    subst h
    simp
  | cons p rest ih =>
    intro rc bc res h
    cases hteam : p.team with
    | red =>
      simp only [resetPlayersAux, hteam, hred, playerSpawnPos,
        List.length_nil, Nat.lt_irrefl, if_false, Option.map_eq_some'] at h
      obtain ⟨l, hl, hres⟩ := h
      subst hres
      have ihl := ih (rc + 1) bc l hl
      simp only [List.filter_cons, hteam, beq_self_eq_true, if_true,
        List.length_cons, List.range_succ_eq_map, List.map_cons,
        List.map_map]
      congr 1
      rw [ihl]
      refine List.map_congr_left fun k _ => ?_
      have hk : rc + 1 + k = rc + (k + 1) := by omega
      simp [Function.comp, hk]
    | blue =>
      simp only [resetPlayersAux, hteam] at h
      cases hsp : playerSpawnPos ss.blueSpawnPoints d bc with
      | none => rw [hsp] at h; cases h
      | some pos =>
        rw [hsp] at h
        simp only [Option.map_eq_some'] at h
        obtain ⟨l, hl, hres⟩ := h
        subst hres
        have ihl := ih rc (bc + 1) l hl
        simpa [List.filter_cons, hteam] using ihl
    | spectator =>
      simp only [resetPlayersAux, hteam, Option.map_eq_some'] at h
      obtain ⟨l, hl, hres⟩ := h
      subst hres
      have ihl := ih rc bc l hl
      simpa [List.filter_cons, hteam] using ihl

/-- With an empty blue spawn list, the blue players produced by the player
loop started at counter `bc` sit at `x = +spawn_distance` with the
procedural y-coordinates in roster order. -/
theorem resetPlayersAux_blue_pos (ss : Stadium) (d : ℚ)
    (hblue : ss.blueSpawnPoints = []) :
    ∀ (players : List Player) (rc bc : ℕ) (res : List Player),
      resetPlayersAux ss d rc bc players = some res →
      (res.filter (fun p => p.team == TeamID.blue)).map
          (fun p => p.disc.position) =
        (List.range
            ((players.filter (fun p => p.team == TeamID.blue)).length)).map
          (fun k => (⟨d, fallbackY (bc + k)⟩ : Vec2)) := by
  intro players
  induction players with
  | nil =>
    intro rc bc res h
    simp only [resetPlayersAux, Option.some.injEq] at h
    subst h
    simp
  | cons p rest ih =>
    intro rc bc res h
    cases hteam : p.team with
    | blue =>
      simp only [resetPlayersAux, hteam, hblue, playerSpawnPos,
        List.length_nil, Nat.lt_irrefl, if_false, Option.map_eq_some'] at h
      obtain ⟨l, hl, hres⟩ := h
      subst hres
      have ihl := ih rc (bc + 1) l hl
      simp only [List.filter_cons, hteam, beq_self_eq_true, if_true,
        List.length_cons, List.range_succ_eq_map, List.map_cons,
        List.map_map]
      congr 1
      rw [ihl]
      refine List.map_congr_left fun k _ => ?_
      have hk : bc + 1 + k = bc + (k + 1) := by omega
      simp [Function.comp, hk]
    | red =>
      simp only [resetPlayersAux, hteam] at h
      cases hsp : playerSpawnPos ss.redSpawnPoints (-d) rc with
      | none => rw [hsp] at h; cases h
      | some pos =>
        rw [hsp] at h
        simp only [Option.map_eq_some'] at h
        obtain ⟨l, hl, hres⟩ := h
        subst hres
        have ihl := ih (rc + 1) bc l hl
        simpa [List.filter_cons, hteam] using ihl
    | spectator =>
      simp only [resetPlayersAux, hteam, Option.map_eq_some'] at h
      obtain ⟨l, hl, hres⟩ := h
      subst hres
      have ihl := ih rc bc l hl
      simpa [List.filter_cons, hteam] using ihl

/-- Claim C8 (confirmed): when a team's spawn-point list is empty, the
player loop places that team's k-th player (k from 0 in roster order) at
`x = -spawn_distance` (red) or `x = +spawn_distance` (blue) with
`y = fallbackY k`, i.e. `-55 * ((k+1) >> 1)` for odd k and
`55 * ((k+1) >> 1)` for even k, `>>` being floored division by two. -/
theorem claimC8_spawn_fallback (ss : Stadium) (d : ℚ)
    (players res : List Player) (hred : ss.redSpawnPoints = [])
    (hblue : ss.blueSpawnPoints = [])
    (h : resetPlayersAux ss d 0 0 players = some res) :
    ((res.filter (fun p => p.team == TeamID.red)).map
        (fun p => p.disc.position) =
      (List.range
          ((players.filter (fun p => p.team == TeamID.red)).length)).map
        (fun k => (⟨-d, fallbackY k⟩ : Vec2))) ∧
      ((res.filter (fun p => p.team == TeamID.blue)).map
          (fun p => p.disc.position) =
        (List.range
            ((players.filter (fun p => p.team == TeamID.blue)).length)).map
          (fun k => (⟨d, fallbackY k⟩ : Vec2))) := by
  constructor
  · simpa using resetPlayersAux_red_pos ss d hred players 0 0 res h
  · simpa using resetPlayersAux_blue_pos ss d hblue players 0 0 res h

/-- Witness for claim C8 at a concrete input: a single red player with the
sample store stadium (empty spawn lists) is placed at
`(-spawn_distance, fallbackY 0)`. -/
theorem claimC8_witness :
    ([({ samplePlayer with disc :=
        { resetPlayerCommon storeStadium samplePlayer with
          position := ⟨-(400 : ℚ), fallbackY 0⟩ } } : Player)].filter
          (fun p => p.team == TeamID.red)).map (fun p => p.disc.position) =
      (List.range
          (([samplePlayer].filter (fun p => p.team == TeamID.red)).length)).map
        (fun k => (⟨-(400 : ℚ), fallbackY k⟩ : Vec2)) :=
  (claimC8_spawn_fallback storeStadium 400 [samplePlayer]
    [({ samplePlayer with disc :=
      { resetPlayerCommon storeStadium samplePlayer with
        position := ⟨-(400 : ℚ), fallbackY 0⟩ } } : Player)] rfl rfl rfl).1

/-! ## Claim C10 -/

/-- Claim C10 (confirmed): with a nonempty spawn list of length `len`, the
index `min(count, len)` used for a team's k-th player is in bounds for
every player exactly when the team's player count does not exceed `len`;
for the player numbered `k = len` the computed index equals `len`, one
past the end of the list — there the lookup fails (Python raises
`IndexError`). -/
theorem claimC10_spawn_index (count len : ℕ) (hlen : 0 < len) :
    ((∀ k : ℕ, k < count → spawnIndex k len < len) ↔ count ≤ len) ∧
      spawnIndex len len = len ∧
      (∀ (spawns : List Vec2) (x : ℚ), spawns.length = len →
        playerSpawnPos spawns x len = none) := by
  refine ⟨⟨fun h => ?_, fun h k hk => ?_⟩, ?_, ?_⟩
  · by_contra hcon
    push_neg at hcon
    have := h len hcon
    simp [spawnIndex] at this
  · simp only [spawnIndex]
    omega
  · simp [spawnIndex]
  · intro spawns x hsp
    rw [playerSpawnPos, if_pos (by omega)]
    rw [show spawnIndex len spawns.length = spawns.length from by
      simp [spawnIndex, hsp]]
    exact List.get?_eq_none.mpr le_rfl

/-- Witness for claim C10 at a concrete input: with a one-point spawn list,
two players are not all in bounds (`(∀ k < 2, min k 1 < 1)` fails), the
second player's index is `1 = len`, and the lookup there returns no
position. -/
theorem claimC10_witness :
    ((∀ k : ℕ, k < 2 → spawnIndex k 1 < 1) ↔ 2 ≤ 1) ∧
      spawnIndex 1 1 = 1 ∧
      playerSpawnPos [⟨0, 0⟩] 0 1 = none :=
  ⟨(claimC10_spawn_index 2 1 (by decide)).1,
    (claimC10_spawn_index 2 1 (by decide)).2.1,
    (claimC10_spawn_index 2 1 (by decide)).2.2 [⟨0, 0⟩] 0 rfl⟩

/-! ## Claim C9 -/

/-- One recorder step keeps the player-info list, the stream count and the
options untouched. -/
theorem recorderStep_fields (s : RecorderState)
    (actions : List (ℤ × ℤ × ℤ)) :
    (recorderStep s actions).playerInfo = s.playerInfo ∧
      (recorderStep s actions).playerAction.length =
        s.playerAction.length ∧
      (recorderStep s actions).options = s.options := by
  refine ⟨rfl, ?_, rfl⟩
  simp only [recorderStep, List.length_append, List.length_zipWith,
    List.length_drop]
  omega

/-- Over a whole recorded game, the recorder state keeps the player-info
list and options from `start` and one action stream per player. -/
theorem recorderFold_fields (infos : List PlayerInfo) (tk : ℤ)
    (steps : List (List (ℤ × ℤ × ℤ))) :
    (steps.foldl recorderStep (recorderStart infos tk)).playerInfo =
        infos ∧
      (steps.foldl recorderStep
          (recorderStart infos tk)).playerAction.length = infos.length ∧
      (steps.foldl recorderStep (recorderStart infos tk)).options =
        [tk * 8] := by
  suffices h : ∀ (st : List (List (ℤ × ℤ × ℤ))) (s : RecorderState),
      (st.foldl recorderStep s).playerInfo = s.playerInfo ∧
        (st.foldl recorderStep s).playerAction.length =
          s.playerAction.length ∧
        (st.foldl recorderStep s).options = s.options by
    obtain ⟨h1, h2, h3⟩ := h steps (recorderStart infos tk)
    exact ⟨h1, by rw [h2]; simp [recorderStart], h3⟩
  intro st
  induction st with
  | nil => intro s; exact ⟨rfl, rfl, rfl⟩
  | cons a t ih =>
    intro s
    obtain ⟨h1, h2, h3⟩ := ih (recorderStep s a)
    obtain ⟨g1, g2, g3⟩ := recorderStep_fields s a
    exact ⟨by rw [List.foldl_cons, h1, g1],
      by rw [List.foldl_cons, h2, g2], by rw [List.foldl_cons, h3, g3]⟩

/-- Claim C9 (confirmed): for every recorded game (a `start` followed by
any sequence of recorded ticks), `stop` assembles the recording
`[team_kickoff * 8, zip(player_info, player_action)]`, and reading that
recording back recovers exactly the recorder state — the same options
value, the same player info list and the same per-player per-tick action
streams that were accumulated. (msgpack serialization, an external
library, is modelled as faithful.) -/
theorem claimC9_recording_roundtrip (infos : List PlayerInfo) (tk : ℤ)
    (steps : List (List (ℤ × ℤ × ℤ))) :
    recorderStop (steps.foldl recorderStep (recorderStart infos tk)) =
        some ⟨tk * 8,
          (steps.foldl recorderStep (recorderStart infos tk)).playerInfo.zip
            (steps.foldl recorderStep
              (recorderStart infos tk)).playerAction⟩ ∧
      readFromFile ⟨tk * 8,
          (steps.foldl recorderStep (recorderStart infos tk)).playerInfo.zip
            (steps.foldl recorderStep
              (recorderStart infos tk)).playerAction⟩ =
        steps.foldl recorderStep (recorderStart infos tk) ∧
      (steps.foldl recorderStep (recorderStart infos tk)).playerInfo =
        infos := by
  obtain ⟨h1, h2, h3⟩ := recorderFold_fields infos tk steps
  have hlen : (steps.foldl recorderStep
      (recorderStart infos tk)).playerInfo.length =
      (steps.foldl recorderStep
        (recorderStart infos tk)).playerAction.length := by
    rw [h1, h2]
  refine ⟨?_, ?_, h1⟩
  · simp only [recorderStop, h3]
  · simp only [readFromFile]
    rw [List.map_fst_zip _ _ hlen.le, List.map_snd_zip _ _ hlen.ge, ← h3]

end Ursinaxball
